import Mathlib

/-!
Verification development for `emailpie/utils.py`: a shallow embedding of the
email-validation engine (regex-based syntax matcher, MX lookup, and the
`EmailChecker` check orchestrator) together with theorems settling the
specification's claims about it.
-/

set_option maxRecDepth 10000

namespace EmailPie

/-! ### A small regular-expression engine

`utils.py` decides address validity by matching against one compiled regular
expression.  We embed the relevant fragment of Python's `re` language
(character classes, concatenation, alternation, star) and give it the standard
language semantics via Brzozowski derivatives, so that membership is an
executable Boolean. -/

/-- Regular expressions over `Char`, with character classes given as an
executable predicate. -/
inductive RE where
  | fail : RE
  | eps : RE
  | cls (p : Char → Bool) : RE
  | cat (a b : RE) : RE
  | alt (a b : RE) : RE
  | star (a : RE) : RE

namespace RE

/-- Does the regular expression accept the empty string? -/
def nullable : RE → Bool
  | .fail => false
  | .eps => true
  | .cls _ => false
  | .cat a b => nullable a && nullable b
  | .alt a b => nullable a || nullable b
  | .star _ => true

/-- Smart concatenation: simplifies the unit and absorbing elements so that
derivatives stay small. -/
def mkCat : RE → RE → RE
  | .fail, _ => .fail
  | .eps, b => b
  | a, b =>
    match b with
    | .fail => .fail
    | .eps => a
    | _ => .cat a b

/-- Smart alternation: drops `fail` branches. -/
def mkAlt : RE → RE → RE
  | .fail, b => b
  | a, b =>
    match b with
    | .fail => a
    | _ => .alt a b

/-- Brzozowski derivative: the language of `deriv r c` is
`{ w | c :: w ∈ language r }`. -/
def deriv : RE → Char → RE
  | .fail, _ => .fail
  | .eps, _ => .fail
  | .cls p, c => if p c then .eps else .fail
  | .cat a b, c =>
    if nullable a then mkAlt (mkCat (deriv a c) b) (deriv b c)
    else mkCat (deriv a c) b
  | .alt a b, c => mkAlt (deriv a c) (deriv b c)
  | .star a, c => mkCat (deriv a c) (.star a)

/-- Executable language membership: derive by each character, then ask for
nullability. -/
def accepts (r : RE) (s : List Char) : Bool :=
  nullable (s.foldl deriv r)

/-- Pattern `r+` (one or more repetitions), as Python's `+`. -/
def plus (r : RE) : RE := .cat r (.star r)

/-- Pattern `r?` (zero or one occurrence), as Python's `?`. -/
def opt (r : RE) : RE := .alt .eps r

/-- A single literal character. -/
def chr (c : Char) : RE := .cls (fun d => d = c)

end RE

/-! ### The RFC 2822 address grammar from `utils.py`

Each definition below transcribes the pattern component of the same name in
`utils.py` (lines 22–58), which assembles the 3.4.1 addr-spec production from
the RFC's tokens.  Character-range classes are transcribed range by range.

Python's `\w` matches `[a-zA-Z0-9_]` (plus non-ASCII word characters under
Unicode matching; every address examined in this development is ASCII, where
the two notions coincide).  Python's `.` matches any character except
`'\n'`. -/

/-- Production `WSP = [ \t]` (RFC 2.2.2). -/
def WSP : RE := .cls (fun c => c = ' ' || c = '\t')

/-- Production `CRLF = (?:\r\n)` (RFC 2.2.3). -/
def CRLF : RE := .cat (RE.chr '\r') (RE.chr '\n')

/-- The `NO_WS_CTL` character set `\x01-\x08\x0b\x0c\x0f-\x1f\x7f`
(RFC 3.2.1), as a predicate reused inside the larger classes below. -/
def noWsCtl (c : Char) : Bool :=
  (0x01 ≤ c.toNat && c.toNat ≤ 0x08) || c.toNat = 0x0b || c.toNat = 0x0c ||
  (0x0f ≤ c.toNat && c.toNat ≤ 0x1f) || c.toNat = 0x7f

/-- Production `QUOTED_PAIR = (?:\\.)`: a backslash followed by any character other than
a newline (Python's `.`) (RFC 3.2.2). -/
def QUOTED_PAIR : RE := .cat (RE.chr '\\') (.cls (fun c => c ≠ '\n'))

/-- Production `FWS = (?:(?:WSP*CRLF)?WSP+)` (RFC 3.2.3). -/
def FWS : RE := .cat (RE.opt (.cat (.star WSP) CRLF)) (RE.plus WSP)

/-- Production `CTEXT = [NO_WS_CTL \x21-\x27\x2a-\x5b\x5d-\x7e]` (RFC 3.2.3). -/
def CTEXT : RE := .cls (fun c =>
  noWsCtl c || (0x21 ≤ c.toNat && c.toNat ≤ 0x27) ||
  (0x2a ≤ c.toNat && c.toNat ≤ 0x5b) || (0x5d ≤ c.toNat && c.toNat ≤ 0x7e))

/-- Production `CCONTENT = (?:CTEXT|QUOTED_PAIR)` (RFC 3.2.3). -/
def CCONTENT : RE := .alt CTEXT QUOTED_PAIR

/-- Production `COMMENT = \((?:FWS?CCONTENT)*FWS?\)` (RFC 3.2.3). -/
def COMMENT : RE :=
  .cat (RE.chr '(')
    (.cat (.star (.cat (RE.opt FWS) CCONTENT)) (.cat (RE.opt FWS) (RE.chr ')')))

/-- Production `CFWS = (?:FWS?COMMENT)*(?:FWS?COMMENT|FWS)` (RFC 3.2.3). -/
def CFWS : RE :=
  .cat (.star (.cat (RE.opt FWS) COMMENT))
    (.alt (.cat (RE.opt FWS) COMMENT) FWS)

/-- The `ATEXT` class (RFC 3.2.4): word characters (`\w`) plus the specials
listed in the source pattern: bang, hash, dollar, percent, ampersand,
apostrophe, star, plus, hyphen, slash, equals, question mark, caret,
backquote, left brace, pipe, right brace, tilde. -/
def ATEXT : RE := .cls (fun c =>
  c.isAlpha || c.isDigit || c = '_' ||
  c = '!' || c = '#' || c = '$' || c = '%' || c = '&' || c = '\'' ||
  c = '*' || c = '+' || c = '-' || c = '/' || c = '=' || c = '?' ||
  c = '^' || c = '\x60' || c = '\x7b' || c = '|' || c = '\x7d' || c = '~')

/-- Production `ATOM = CFWS?ATEXT+CFWS?` (RFC 3.2.4). -/
def ATOM : RE := .cat (RE.opt CFWS) (.cat (RE.plus ATEXT) (RE.opt CFWS))

/-- Production `DOT_ATOM_TEXT = ATEXT+(?:\.ATEXT+)*` (RFC 3.2.4). -/
def DOT_ATOM_TEXT : RE :=
  .cat (RE.plus ATEXT) (.star (.cat (RE.chr '.') (RE.plus ATEXT)))

/-- Production `DOT_ATOM = CFWS?DOT_ATOM_TEXT CFWS?` (RFC 3.2.4). -/
def DOT_ATOM : RE := .cat (RE.opt CFWS) (.cat DOT_ATOM_TEXT (RE.opt CFWS))

/-- Production `QTEXT = [NO_WS_CTL \x21\x23-\x5b\x5d-\x7e]` (RFC 3.2.5). -/
def QTEXT : RE := .cls (fun c =>
  noWsCtl c || c.toNat = 0x21 || (0x23 ≤ c.toNat && c.toNat ≤ 0x5b) ||
  (0x5d ≤ c.toNat && c.toNat ≤ 0x7e))

/-- Production `QCONTENT = (?:QTEXT|QUOTED_PAIR)` (RFC 3.2.5). -/
def QCONTENT : RE := .alt QTEXT QUOTED_PAIR

/-- Production `QUOTED_STRING = CFWS?"(?:FWS?QCONTENT)*FWS?"CFWS?` (RFC 3.2.5). -/
def QUOTED_STRING : RE :=
  .cat (RE.opt CFWS)
    (.cat (RE.chr '"')
      (.cat (.star (.cat (RE.opt FWS) QCONTENT))
        (.cat (RE.opt FWS) (.cat (RE.chr '"') (RE.opt CFWS)))))

/-- Production `LOCAL_PART = (?:DOT_ATOM|QUOTED_STRING)` (RFC 3.4.1). -/
def LOCAL_PART : RE := .alt DOT_ATOM QUOTED_STRING

/-- Production `DTEXT = [NO_WS_CTL \x21-\x5a\x5e-\x7e]` (RFC 3.4.1). -/
def DTEXT : RE := .cls (fun c =>
  noWsCtl c || (0x21 ≤ c.toNat && c.toNat ≤ 0x5a) ||
  (0x5e ≤ c.toNat && c.toNat ≤ 0x7e))

/-- Production `DCONTENT = (?:DTEXT|QUOTED_PAIR)` (RFC 3.4.1). -/
def DCONTENT : RE := .alt DTEXT QUOTED_PAIR

/-- Production `DOMAIN_LITERAL = CFWS?\[(?:FWS?DCONTENT)*FWS?\]CFWS?` (RFC 3.4.1). -/
def DOMAIN_LITERAL : RE :=
  .cat (RE.opt CFWS)
    (.cat (RE.chr '[')
      (.cat (.star (.cat (RE.opt FWS) DCONTENT))
        (.cat (RE.opt FWS) (.cat (RE.chr ']') (RE.opt CFWS)))))

/-- Production `DOMAIN = (?:DOT_ATOM|DOMAIN_LITERAL)` (RFC 3.4.1). -/
def DOMAIN : RE := .alt DOT_ATOM DOMAIN_LITERAL

/-- Production `ADDR_SPEC = LOCAL_PART@DOMAIN` (RFC 3.4.1). -/
def ADDR_SPEC : RE := .cat LOCAL_PART (.cat (RE.chr '@') DOMAIN)

/-- Exact membership of a whole string in the language of the 3.4.1
`addr-spec` production — what the source comment "A valid address will match
exactly the 3.4.1 addr-spec" describes. -/
def addrSpecFull (s : String) : Bool := RE.accepts ADDR_SPEC s.data

/-- The membership test `re.match(VALID_ADDRESS_REGEXP, s) is not None` for
the compiled pattern `^ADDR_SPEC$`, with Python's semantics for `$`: the
zero-width assertion `$` succeeds at the end of the string *or just before a
newline at the end of the string*.  Hence `re.match` succeeds exactly when
`ADDR_SPEC` matches the whole string, or the string ends in `'\n'` and
`ADDR_SPEC` matches everything before that final newline. -/
def validAddressMatch (s : String) : Bool :=
  addrSpecFull s ||
    (match s.data.getLast? with
     | some c => c = '\n' && RE.accepts ADDR_SPEC s.data.dropLast
     | none => false)

/-! ### The DNS layer and `mxlookup`

`mxlookup` (utils.py lines 63–90) issues one MX query, optionally retries once
when the first query succeeds with zero answers and server rotation is
enabled, and raises `ServerError` on a non-`NOERROR` status.  We model one DNS
response (`result` of `DnsRequest(...).req()`) as a record of its header
status, header rcode and answer payloads; an MX answer payload
(`x['data']`) is a `(preference, exchanger)` pair.  A run of `mxlookup` sees
at most two responses, so the network is modelled as the pair of responses the
first and the (potential) second query would receive. -/

/-- An MX answer payload: `(preference, mail exchanger)`. -/
abbrev MxRecord := Nat × String

/-- One DNS response: the header fields `mxlookup` reads plus the answer
payloads. -/
structure DnsResult where
  status : String
  rcode : Nat
  answers : List MxRecord
  deriving DecidableEq, Repr

/-- The `ServerError` exception raised by `dnslookup`, carrying the message
and the response's rcode. -/
structure ServerError where
  message : String
  rcode : Nat
  deriving DecidableEq, Repr

/-- The natural ascending order on `(preference, exchanger)` pairs used by
Python's `l.sort()`: compare preferences first, then exchanger strings. -/
def recLE (a b : MxRecord) : Prop :=
  a.1 < b.1 ∨ (a.1 = b.1 ∧ a.2 ≤ b.2)

instance : DecidableRel recLE := fun a b => by
  unfold recLE; infer_instance

instance : IsTotal MxRecord recLE where
  total a b := by
    rcases Nat.lt_trichotomy a.1 b.1 with h | h | h
    · exact Or.inl (Or.inl h)
    · rcases le_total a.2 b.2 with h2 | h2
      · exact Or.inl (Or.inr ⟨h, h2⟩)
      · exact Or.inr (Or.inr ⟨h.symm, h2⟩)
    · exact Or.inr (Or.inl h)

instance : IsTrans MxRecord recLE where
  trans a b c hab hbc := by
    rcases hab with h1 | ⟨e1, s1⟩
    · rcases hbc with h2 | ⟨e2, _⟩
      · exact Or.inl (h1.trans h2)
      · exact Or.inl (e2 ▸ h1)
    · rcases hbc with h2 | ⟨e2, s2⟩
      · exact Or.inl (e1 ▸ h2)
      · exact Or.inr ⟨e1.trans e2, s1.trans s2⟩

/-- Outcome of a run of `mxlookup`: either the `ServerError` it raises or the
returned record list, paired with how many DNS queries were issued. -/
structure MxOutcome where
  result : Except ServerError (List MxRecord)
  queries : Nat

/-- The inner `dnslookup` of `mxlookup` (utils.py lines 66–79), given the
response `r1` the first query receives and the response `r2` a second query
would receive, with `rotate` the `Base.defaults['server_rotate']` flag:

  * a non-`NOERROR` status on the first response raises `ServerError`;
  * otherwise, if the first response has zero answers and rotation is on, the
    query is issued a second time and its response replaces the first;
  * the (possibly replaced) response's status is re-checked, raising
    `ServerError` if it is not `NOERROR`;
  * otherwise the answer payloads are returned. -/
def dnslookup (rotate : Bool) (r1 r2 : DnsResult) : MxOutcome :=
  if r1.status ≠ "NOERROR" then
    { result := .error ⟨"DNS query status: " ++ r1.status, r1.rcode⟩, queries := 1 }
  else
    let retried : Bool := r1.answers.length = 0 && rotate
    let res : DnsResult := if retried then r2 else r1
    let q : Nat := if retried then 2 else 1
    if res.status ≠ "NOERROR" then
      { result := .error ⟨"DNS query status: " ++ res.status, res.rcode⟩, queries := q }
    else
      { result := .ok res.answers, queries := q }

/-- Function `mxlookup` (utils.py lines 63–90): `dnslookup` followed by `l.sort()`,
Python's in-place sort by the natural ascending order of the
`(preference, exchanger)` tuples, modelled by `List.insertionSort recLE`
(any stable comparison sort computes the same list). -/
def mxlookup (rotate : Bool) (r1 r2 : DnsResult) : MxOutcome :=
  let o := dnslookup rotate r1 r2
  { o with result := o.result.map (List.insertionSort recLE) }

/-! ### The `EmailChecker` subject and its checks

`EmailChecker` (utils.py lines 93–209) holds the raw email string, a mutable
error list, the optional cached `mx_records`, and the `_gevent` mode flag.
Checks are methods returning error lists; `validate` runs every `check_*`
method and accumulates the results into `self.errors`.

Stateful Python methods become functions `EmailChecker → α × EmailChecker`
returning their value together with the updated subject.  The MX lookup that
`check_valid_mx_records` performs over the network is abstracted as an oracle
`lookup : String → Except ServerError (List MxRecord)`, the outcome of
`mxlookup` for a given domain (to be instantiated with `(mxlookup ...).result`
or a mock). -/

/-- An entry of the error lists the checks return:
`dict(severity=..., message=...)`. -/
structure CheckError where
  severity : Nat
  message : String
  deriving DecidableEq, Repr

/-- The `EmailChecker` object state. -/
structure EmailChecker where
  email : String
  errors : List CheckError
  mx_records : Option (List MxRecord)
  gevent : Bool
  deriving DecidableEq

/-- Constructor `EmailChecker.__init__`: store the email, start with no errors and
`mx_records = None`; `g` is the `_gevent` argument. -/
def EmailChecker.init (email : String) (g : Bool) : EmailChecker :=
  { email := email, errors := [], mx_records := none, gevent := g }

/-- Python's `str.split(sep)` for a one-character separator: split at every
occurrence of `sep`, keeping empty segments; the result is always
non-empty. -/
def pySplit (sep : Char) : List Char → List (List Char)
  | [] => [[]]
  | c :: cs =>
    match pySplit sep cs with
    | [] => [[]]
    | f :: rest => if c = sep then [] :: f :: rest else (c :: f) :: rest

/-- The `username` property: `self.email.split('@')[0]`. -/
def EmailChecker.username (c : EmailChecker) : String :=
  String.mk ((pySplit '@' c.email.data).headD [])

/-- The `domain` property: `self.email.split('@')[1]`, or `None` when that
index does not exist (the `IndexError` branch). -/
def EmailChecker.domain (c : EmailChecker) : Option String :=
  ((pySplit '@' c.email.data).get? 1).map String.mk

/-- Method `didyoumean` (utils.py lines 119–134), with the spelling collaborator
`correct` passed as a pure function: when the domain is truthy (present and
non-empty), build `'{username}@{labels joined by dots after correction}'` and
return it unless it equals the original email; otherwise return `None`. -/
def EmailChecker.didyoumean (correct : String → String) (c : EmailChecker) :
    Option String :=
  match c.domain with
  | some d =>
    if d = "" then none
    else
      let items := (pySplit '.' d.data).map String.mk
      let suggestion := c.username ++ "@" ++ String.intercalate "." (items.map correct)
      if suggestion = c.email then none else some suggestion
  | none => none

/-- Check `check_valid_email_string` (utils.py lines 172–185): empty error list when
the compiled regex matches, else one severity-10 error.  Reads no mutable
state besides `email` and writes none. -/
def EmailChecker.check_valid_email_string (c : EmailChecker) :
    List CheckError × EmailChecker :=
  if validAddressMatch c.email then ([], c)
  else ([{ severity := 10, message := "Invalid email address." }], c)

/-- Check `check_valid_mx_records` (utils.py lines 187–206): one severity-7 error
when the domain is falsy (absent or empty); otherwise run the MX lookup —
a raised `ServerError` leaves `mx_records` untouched and yields the error,
a returned list is stored into `mx_records` and yields the error exactly
when it is empty. -/
def EmailChecker.check_valid_mx_records
    (lookup : String → Except ServerError (List MxRecord)) (c : EmailChecker) :
    List CheckError × EmailChecker :=
  let error : CheckError :=
    { severity := 7, message := "No MX records found for the domain." }
  match c.domain with
  | none => ([error], c)
  | some d =>
    if d = "" then ([error], c)
    else
      match lookup d with
      | .error _ => ([error], c)
      | .ok recs =>
        let c' := { c with mx_records := some recs }
        if recs.length = 0 then ([error], c') else ([], c')

/-- Check `check_nothing` (utils.py lines 208–209): always the empty error list. -/
def EmailChecker.check_nothing (c : EmailChecker) :
    List CheckError × EmailChecker :=
  ([], c)

/-- The names of the `check_*` methods in the order `dir(self)` enumerates
them: Python's `dir` returns a lexicographically sorted name list, so the
`checks` property collects the three checks in this order. -/
def checkNames : List String :=
  ["check_nothing", "check_valid_email_string", "check_valid_mx_records"]

/-- Running the discovered checks in discovery order, threading the subject
state left to right, and collecting each check's returned error list
separately (the list comprehension `[check() for check in self.checks]`). -/
def EmailChecker.runChecks
    (lookup : String → Except ServerError (List MxRecord)) (c : EmailChecker) :
    List (List CheckError) × EmailChecker :=
  ([c.check_nothing.1,
    c.check_nothing.2.check_valid_email_string.1,
    (EmailChecker.check_valid_mx_records lookup
      c.check_nothing.2.check_valid_email_string.2).1],
   (EmailChecker.check_valid_mx_records lookup
      c.check_nothing.2.check_valid_email_string.2).2)

/-- Method `validate` (utils.py lines 147–165).  In gevent mode every check is
spawned as a greenlet and joined (modelled with every check completing within
the timeout; only the MX check writes state and no check reads another's
writes, so the cooperative execution is observationally the sequential
threading), then each truthy `result.value` is appended to `self.errors` in
discovery order.  In sequential mode the checks all run first, then every
result is appended in discovery order.  Both modes return the final
`self.errors`. -/
def EmailChecker.validate
    (lookup : String → Except ServerError (List MxRecord)) (c : EmailChecker) :
    List CheckError × EmailChecker :=
  if c.gevent then
    ((c.runChecks lookup).1.foldl
        (fun acc r => if r.isEmpty then acc else acc ++ r)
        (c.runChecks lookup).2.errors,
     { (c.runChecks lookup).2 with
        errors := (c.runChecks lookup).1.foldl
          (fun acc r => if r.isEmpty then acc else acc ++ r)
          (c.runChecks lookup).2.errors })
  else
    ((c.runChecks lookup).2.errors ++ (c.runChecks lookup).1.flatten,
     { (c.runChecks lookup).2 with
        errors := (c.runChecks lookup).2.errors ++ (c.runChecks lookup).1.flatten })

/-! ### Structural lemmas about the checks -/

/-- Check `check_nothing` returns the empty list and leaves the subject unchanged. -/
lemma check_nothing_eq (c : EmailChecker) : c.check_nothing = ([], c) := rfl

/-- The syntax check never mutates the subject. -/
lemma check_valid_email_string_snd (c : EmailChecker) :
    c.check_valid_email_string.2 = c := by
  unfold EmailChecker.check_valid_email_string
  split <;> rfl

/-- The syntax check's error list is a function of the email string alone. -/
lemma check_valid_email_string_fst (c : EmailChecker) :
    c.check_valid_email_string.1 =
      (if validAddressMatch c.email then []
       else [{ severity := 10, message := "Invalid email address." }]) := by
  unfold EmailChecker.check_valid_email_string
  split <;> simp_all

/-- The MX check's error list is a function of the domain and the lookup
oracle alone. -/
lemma check_valid_mx_records_fst
    (lookup : String → Except ServerError (List MxRecord)) (c : EmailChecker) :
    (EmailChecker.check_valid_mx_records lookup c).1 =
      (match c.domain with
       | none => [{ severity := 7, message := "No MX records found for the domain." }]
       | some d =>
         if d = "" then [{ severity := 7, message := "No MX records found for the domain." }]
         else
           match lookup d with
           | .error _ => [{ severity := 7, message := "No MX records found for the domain." }]
           | .ok recs =>
             if recs.length = 0
             then [{ severity := 7, message := "No MX records found for the domain." }]
             else []) := by
  unfold EmailChecker.check_valid_mx_records
  rcases hd : c.domain with _ | d
  · rfl
  · by_cases he : d = ""
    · simp [he]
    · rcases hl : lookup d with e | recs
      · simp [he, hl]
      · by_cases hr : recs.length = 0 <;> simp [he, hl, hr]

/-- The MX check only ever writes the `mx_records` field. -/
lemma check_valid_mx_records_snd
    (lookup : String → Except ServerError (List MxRecord)) (c : EmailChecker) :
    (EmailChecker.check_valid_mx_records lookup c).2 =
      { c with mx_records := (EmailChecker.check_valid_mx_records lookup c).2.mx_records } := by
  unfold EmailChecker.check_valid_mx_records
  rcases hd : c.domain with _ | d
  · rfl
  · by_cases he : d = ""
    · simp [he]
    · rcases hl : lookup d with e | recs
      · simp [he, hl]
      · by_cases hr : recs.length = 0 <;> simp [he, hl, hr]

/-- The subject's `domain` is a function of its email string. -/
lemma domain_congr {c c' : EmailChecker} (h : c.email = c'.email) :
    c.domain = c'.domain := by
  unfold EmailChecker.domain
  rw [h]

/-- The per-check result lists collected by `runChecks` depend only on the
subject's email string (and the lookup oracle), not on its mutable fields. -/
lemma runChecks_fst_congr
    (lookup : String → Except ServerError (List MxRecord)) {c c' : EmailChecker}
    (h : c.email = c'.email) :
    (c.runChecks lookup).1 = (c'.runChecks lookup).1 := by
  unfold EmailChecker.runChecks
  simp only [check_nothing_eq, check_valid_email_string_snd,
    check_valid_email_string_fst, check_valid_mx_records_fst, h, domain_congr h]

/-- Running `runChecks` preserves the email, errors and gevent fields. -/
lemma runChecks_snd
    (lookup : String → Except ServerError (List MxRecord)) (c : EmailChecker) :
    (c.runChecks lookup).2 =
      { c with mx_records := (c.runChecks lookup).2.mx_records } := by
  unfold EmailChecker.runChecks
  simp only [check_nothing_eq, check_valid_email_string_snd]
  exact check_valid_mx_records_snd lookup c

/-- Appending each list of a list of lists, skipping the empty ones (the
gevent-mode merge loop `if result.value: self.errors += result.value`),
computes the same list as appending the flattening. -/
lemma foldl_skip_empty (rs : List (List CheckError)) (acc : List CheckError) :
    rs.foldl (fun acc r => if r.isEmpty then acc else acc ++ r) acc =
      acc ++ rs.flatten := by
  induction rs generalizing acc with
  | nil => simp
  | cons r rs ih =>
    have hstep : (if r.isEmpty then acc else acc ++ r) = acc ++ r := by
      cases r <;> simp
    simp only [List.foldl_cons, hstep, ih, List.flatten_cons, List.append_assoc]

/-- In both execution modes, `validate` returns the subject's prior errors
followed by the flattened per-check results in discovery order. -/
lemma validate_fst
    (lookup : String → Except ServerError (List MxRecord)) (c : EmailChecker) :
    (c.validate lookup).1 = c.errors ++ (c.runChecks lookup).1.flatten := by
  have herr : (c.runChecks lookup).2.errors = c.errors := by
    rw [runChecks_snd]
  unfold EmailChecker.validate
  split
  · dsimp only
    rw [foldl_skip_empty, herr]
  · dsimp only
    rw [herr]

/-- Method `validate` preserves the subject's email string. -/
lemma validate_snd_email
    (lookup : String → Except ServerError (List MxRecord)) (c : EmailChecker) :
    (c.validate lookup).2.email = c.email := by
  have hmail : (c.runChecks lookup).2.email = c.email := by
    rw [runChecks_snd]
  unfold EmailChecker.validate
  split <;> dsimp only <;> exact hmail

/-- Method `validate` stores the list it returns back into the subject's error
field. -/
lemma validate_snd_errors
    (lookup : String → Except ServerError (List MxRecord)) (c : EmailChecker) :
    (c.validate lookup).2.errors = (c.validate lookup).1 := by
  unfold EmailChecker.validate
  split <;> dsimp only

/-- Method `validate` preserves the execution-mode flag. -/
lemma validate_snd_gevent
    (lookup : String → Except ServerError (List MxRecord)) (c : EmailChecker) :
    (c.validate lookup).2.gevent = c.gevent := by
  have hgv : (c.runChecks lookup).2.gevent = c.gevent := by
    rw [runChecks_snd]
  unfold EmailChecker.validate
  split <;> dsimp only <;> exact hgv

/-- After `validate`, the subject's `mx_records` field is exactly what the MX
check left there: no other part of `validate` writes it. -/
lemma validate_snd_mx_records
    (lookup : String → Except ServerError (List MxRecord)) (c : EmailChecker) :
    (c.validate lookup).2.mx_records = (c.runChecks lookup).2.mx_records := by
  unfold EmailChecker.validate
  split <;> dsimp only

/-! ### Lemmas about `pySplit` -/

/-- Python `str.split(sep)` always returns at least one segment. -/
lemma pySplit_ne_nil (sep : Char) (l : List Char) : pySplit sep l ≠ [] := by
  cases l with
  | nil => simp [pySplit]
  | cons c cs =>
    unfold pySplit
    rcases h : pySplit sep cs with _ | ⟨f, rest⟩
    · simp
    · by_cases hc : c = sep <;> simp [hc]

/-- The first segment of `str.split(sep)` is the longest `sep`-free
prefix. -/
lemma pySplit_head (sep : Char) (l : List Char) :
    (pySplit sep l).headD [] = l.takeWhile (fun c => c ≠ sep) := by
  induction l with
  | nil => simp [pySplit]
  | cons c cs ih =>
    unfold pySplit
    rcases h : pySplit sep cs with _ | ⟨f, rest⟩
    · exact absurd h (pySplit_ne_nil sep cs)
    · by_cases hc : c = sep
      · simp [hc, List.takeWhile]
      · simp only [if_neg hc, List.headD_cons, List.takeWhile]
        rw [h] at ih
        simp only [List.headD_cons] at ih
        simp [hc, ih]

/-- Prepending a non-separator character does not change the second segment
of the split. -/
lemma pySplit_get1_cons_ne (sep c : Char) (l : List Char) (h : c ≠ sep) :
    (pySplit sep (c :: l)).get? 1 = (pySplit sep l).get? 1 := by
  rcases hs : pySplit sep l with _ | ⟨f, rest⟩
  · exact absurd hs (pySplit_ne_nil sep l)
  · simp only [pySplit, hs, if_neg h]
    simp

/-- After the first separator, the second segment of the split is the head
segment of splitting the remainder. -/
lemma pySplit_get1_cons_sep (sep : Char) (l : List Char) :
    (pySplit sep (sep :: l)).get? 1 = some ((pySplit sep l).headD []) := by
  rcases hs : pySplit sep l with _ | ⟨f, rest⟩
  · exact absurd hs (pySplit_ne_nil sep l)
  · simp only [pySplit, hs, if_pos rfl]
    simp

/-- The split has no second segment exactly when the separator does not
occur. -/
lemma pySplit_get1_none_iff (sep : Char) (l : List Char) :
    (pySplit sep l).get? 1 = none ↔ sep ∉ l := by
  induction l with
  | nil => simp [pySplit]
  | cons c cs ih =>
    by_cases hc : c = sep
    · subst hc
      rw [pySplit_get1_cons_sep]
      simp
    · rw [pySplit_get1_cons_ne sep c cs hc, ih]
      simp [List.mem_cons]
      intro h
      exact fun hh => hc hh.symm

/-- Splitting `a ++ sep :: rest` where `a` is separator-free: the second
segment is the separator-free prefix of `rest`. -/
lemma pySplit_get1_append (sep : Char) (a rest : List Char) (ha : sep ∉ a) :
    (pySplit sep (a ++ sep :: rest)).get? 1 =
      some (rest.takeWhile (fun c => c ≠ sep)) := by
  induction a with
  | nil => rw [List.nil_append, pySplit_get1_cons_sep, pySplit_head]
  | cons x a ih =>
    have hx : x ≠ sep := fun h => ha (h ▸ List.mem_cons_self x a)
    rw [List.cons_append, pySplit_get1_cons_ne sep x _ hx,
      ih (fun h => ha (List.mem_cons_of_mem x h))]

/-! ### Claim theorems -/

/-- C2: `check_valid_email_string`'s regex membership test was intended to
match only whole addr-spec strings, but Python's `$` also matches just before
a trailing newline, contradicting the source comment "A valid address will
match exactly the 3.4.1 addr-spec": appending the character `'\n'` to the
valid address `"a@b.com"` leaves the membership test true even though the
extended string is not in the addr-spec language. -/
theorem c2_trailing_newline_bug :
    validAddressMatch "a@b.com" = true ∧
    validAddressMatch ("a@b.com" ++ "\n") = true ∧
    addrSpecFull ("a@b.com" ++ "\n") = false :=
  ⟨by decide, by decide, by decide⟩

/-- C6 (counterexample): for the input `"a@b@c"`, which contains two `@`
characters, the subject's `domain` is `"b"` — the segment between the first
and second `@` — and not `"b@c"`, the substring after the first `@` that the
claim asserts. -/
theorem c6_domain_counterexample :
    (EmailChecker.init "a@b@c" false).domain = some "b" ∧
    (EmailChecker.init "a@b@c" false).domain ≠ some "b@c" :=
  ⟨by decide, by decide⟩

/-- C6 (amended): `username` is the substring before the first `@`; `domain`
is absent exactly when the string contains no `@`; and when the string is
`a ++ "@" ++ rest` with `a` free of `@`, `domain` is the prefix of `rest` up
to (but not including) the next `@` — the segment between the first and
second `@`, not everything after the first `@`. -/
theorem c6_username_domain_spec (email : String) (g : Bool) :
    (EmailChecker.init email g).username =
      String.mk (email.data.takeWhile (fun c => c ≠ '@')) ∧
    ((EmailChecker.init email g).domain = none ↔ '@' ∉ email.data) ∧
    (∀ a rest, '@' ∉ a → email.data = a ++ '@' :: rest →
      (EmailChecker.init email g).domain =
        some (String.mk (rest.takeWhile (fun c => c ≠ '@')))) := by
  refine ⟨?_, ?_, ?_⟩
  · show String.mk ((pySplit '@' email.data).headD []) = _
    rw [pySplit_head]
  · show ((pySplit '@' email.data).get? 1).map String.mk = none ↔ _
    rw [Option.map_eq_none']
    exact pySplit_get1_none_iff '@' email.data
  · intro a rest ha he
    show ((pySplit '@' email.data).get? 1).map String.mk = _
    rw [he, pySplit_get1_append '@' a rest ha]
    rfl

/-- C6 (witness): the amended statement applied to the concrete input
`"a@b@c"`, decomposed as `['a'] ++ '@' :: ['b', '@', 'c']`, gives
`domain = "b"`. -/
theorem c6_username_domain_spec_witness :
    (EmailChecker.init "a@b@c" false).domain = some "b" := by
  have h := (c6_username_domain_spec "a@b@c" false).2.2 ['a'] ['b', '@', 'c']
    (by decide) (by decide)
  have h2 : String.mk (['b', '@', 'c'].takeWhile (fun c => c ≠ '@')) = "b" := by
    decide
  rw [h2] at h
  exact h

/-- C8: validating `"not-an-email"` yields exactly two errors in this order:
the severity-10 syntax error and the severity-7 MX error (the domain being
absent, the MX check fails without consulting the resolver), in either
execution mode. -/
theorem c8_not_an_email
    (lookup : String → Except ServerError (List MxRecord)) (g : Bool) :
    ((EmailChecker.init "not-an-email" g).validate lookup).1 =
      [{ severity := 10, message := "Invalid email address." },
       { severity := 7, message := "No MX records found for the domain." }] := by
  cases g <;> rfl

/-- C3 (counterexample): for the input `"user@"` the domain is present but
empty (`some ""`), so by the claim the check should consult the MX lookup and,
that lookup returning a non-empty record list, report no error and cache the
records; the code instead short-circuits on the falsy empty string, returns
the severity-7 error, and leaves `mx_records` at `None`. -/
theorem c3_empty_domain_counterexample :
    (EmailChecker.init "user@" false).domain = some "" ∧
    (EmailChecker.check_valid_mx_records (fun _ => .ok [(10, "mx1.example.com")])
        (EmailChecker.init "user@" false)).1 =
      [{ severity := 7, message := "No MX records found for the domain." }] ∧
    (EmailChecker.check_valid_mx_records (fun _ => .ok [(10, "mx1.example.com")])
        (EmailChecker.init "user@" false)).2.mx_records = none :=
  ⟨by decide, by decide, by decide⟩

/-- C3 (amended): `check_valid_mx_records` returns exactly one severity-7
error when the domain is absent *or empty* (without consulting the lookup);
otherwise it consults the lookup, mapping a resolution error and an empty
record list to that same single severity-7 error, and a non-empty record list
(cached onto the subject) to the empty error list. -/
theorem c3_check_mx_spec
    (lookup : String → Except ServerError (List MxRecord)) (c : EmailChecker) :
    (c.domain = none ∨ c.domain = some "" →
      EmailChecker.check_valid_mx_records lookup c =
        ([{ severity := 7, message := "No MX records found for the domain." }], c)) ∧
    (∀ d e, c.domain = some d → lookup d = .error e →
      EmailChecker.check_valid_mx_records lookup c =
        ([{ severity := 7, message := "No MX records found for the domain." }], c)) ∧
    (∀ d, c.domain = some d → d ≠ "" → lookup d = .ok [] →
      EmailChecker.check_valid_mx_records lookup c =
        ([{ severity := 7, message := "No MX records found for the domain." }],
         { c with mx_records := some [] })) ∧
    (∀ d recs, c.domain = some d → d ≠ "" → lookup d = .ok recs → recs ≠ [] →
      EmailChecker.check_valid_mx_records lookup c =
        ([], { c with mx_records := some recs })) := by
  refine ⟨?_, ?_, ?_, ?_⟩
  · intro h
    unfold EmailChecker.check_valid_mx_records
    rcases h with h | h <;> rw [h] <;> simp
  · intro d e hd hl
    unfold EmailChecker.check_valid_mx_records
    rw [hd]
    by_cases hde : d = ""
    · simp [hde]
    · simp [hde, hl]
  · intro d hd hne hl
    unfold EmailChecker.check_valid_mx_records
    rw [hd]
    simp [hne, hl]
  · intro d recs hd hne hl hr
    unfold EmailChecker.check_valid_mx_records
    rw [hd]
    simp [hne, hl, List.length_eq_zero, hr]

/-- C3 (witness): the amended statement at the concrete subject
`"user@example.com"` with a lookup returning one record: no error, records
cached. -/
theorem c3_check_mx_spec_witness :
    EmailChecker.check_valid_mx_records (fun _ => .ok [(10, "mx1.example.com")])
        (EmailChecker.init "user@example.com" false) =
      ([], { EmailChecker.init "user@example.com" false with
              mx_records := some [(10, "mx1.example.com")] }) :=
  (c3_check_mx_spec (fun _ => .ok [(10, "mx1.example.com")])
      (EmailChecker.init "user@example.com" false)).2.2.2
    "example.com" [(10, "mx1.example.com")] (by decide) (by decide) rfl (by decide)

/-- C5: in sequential mode, `validate` returns exactly the concatenation of
the three checks' error lists in discovery order, threading the subject state
left to right, and its length is the sum of the per-check lengths. -/
theorem c5_validate_sequential_concat
    (lookup : String → Except ServerError (List MxRecord)) (email : String) :
    ((EmailChecker.init email false).validate lookup).1 =
      (EmailChecker.init email false).check_nothing.1 ++
      (EmailChecker.init email false).check_nothing.2.check_valid_email_string.1 ++
      (EmailChecker.check_valid_mx_records lookup
        (EmailChecker.init email false).check_nothing.2.check_valid_email_string.2).1 ∧
    ((EmailChecker.init email false).validate lookup).1.length =
      (EmailChecker.init email false).check_nothing.1.length +
      (EmailChecker.init email false).check_nothing.2.check_valid_email_string.1.length +
      (EmailChecker.check_valid_mx_records lookup
        (EmailChecker.init email false).check_nothing.2.check_valid_email_string.2).1.length := by
  have heq : ((EmailChecker.init email false).validate lookup).1 =
      (EmailChecker.init email false).check_nothing.1 ++
      (EmailChecker.init email false).check_nothing.2.check_valid_email_string.1 ++
      (EmailChecker.check_valid_mx_records lookup
        (EmailChecker.init email false).check_nothing.2.check_valid_email_string.2).1 := by
    rw [validate_fst]
    show [] ++ _ = _
    unfold EmailChecker.runChecks
    simp [List.append_assoc]
  exact ⟨heq, by rw [heq]; simp [Nat.add_assoc]⟩

/-- C1 (counterexample): with the MX outcome fixed to a resolution error,
validating the subject `"not-an-email"` twice returns a different (doubled)
list the second time, because `validate` appends into the subject's
accumulated error list. -/
theorem c1_validate_twice_counterexample :
    (((EmailChecker.init "not-an-email" false).validate
        (fun _ => .error ⟨"DNS query status: NXDOMAIN", 3⟩)).2.validate
        (fun _ => .error ⟨"DNS query status: NXDOMAIN", 3⟩)).1 ≠
      ((EmailChecker.init "not-an-email" false).validate
        (fun _ => .error ⟨"DNS query status: NXDOMAIN", 3⟩)).1 := by
  decide

/-- C1 (amended): with the MX outcomes fixed, a second `validate` on the
mutated subject returns the first call's list concatenated with a fresh copy
of the per-check errors — equal to the first call's list followed by itself —
so the two calls agree exactly when the first call returned no errors. -/
theorem c1_validate_second_run
    (lookup : String → Except ServerError (List MxRecord)) (email : String)
    (g : Bool) :
    (((EmailChecker.init email g).validate lookup).2.validate lookup).1 =
      ((EmailChecker.init email g).validate lookup).1 ++
        ((EmailChecker.init email g).validate lookup).1 ∧
    ((((EmailChecker.init email g).validate lookup).2.validate lookup).1 =
        ((EmailChecker.init email g).validate lookup).1 ↔
      ((EmailChecker.init email g).validate lookup).1 = []) := by
  have hmail : ((EmailChecker.init email g).validate lookup).2.email =
      (EmailChecker.init email g).email :=
    validate_snd_email lookup (EmailChecker.init email g)
  have hfirst : ((EmailChecker.init email g).validate lookup).1 =
      ((EmailChecker.init email g).runChecks lookup).1.flatten := by
    rw [validate_fst]
    rfl
  have hsecond : (((EmailChecker.init email g).validate lookup).2.validate lookup).1 =
      ((EmailChecker.init email g).validate lookup).1 ++
        ((EmailChecker.init email g).validate lookup).1 := by
    rw [validate_fst, validate_snd_errors,
      runChecks_fst_congr lookup hmail, ← hfirst]
  refine ⟨hsecond, ?_⟩
  rw [hsecond]
  constructor
  · intro h
    have hlen := congrArg List.length h
    simp only [List.length_append] at hlen
    have : ((EmailChecker.init email g).validate lookup).1.length = 0 := by omega
    exact List.eq_nil_of_length_eq_zero this
  · intro h
    rw [h]
    rfl

/-- C7: `mx_records` is `None` at construction; the no-op and syntax checks
never write it; the MX check leaves it unchanged when the domain is absent or
empty or the lookup raises, and stores the returned record list (possibly
empty) on a lookup success; and `validate`'s final `mx_records` is exactly
what the MX check left there. -/
theorem c7_mx_records_only_mx_check
    (email : String) (g : Bool)
    (lookup : String → Except ServerError (List MxRecord)) (c : EmailChecker) :
    (EmailChecker.init email g).mx_records = none ∧
    c.check_nothing.2.mx_records = c.mx_records ∧
    c.check_valid_email_string.2.mx_records = c.mx_records ∧
    (c.domain = none ∨ c.domain = some "" →
      (EmailChecker.check_valid_mx_records lookup c).2.mx_records = c.mx_records) ∧
    (∀ d e, c.domain = some d → lookup d = .error e →
      (EmailChecker.check_valid_mx_records lookup c).2.mx_records = c.mx_records) ∧
    (∀ d recs, c.domain = some d → d ≠ "" → lookup d = .ok recs →
      (EmailChecker.check_valid_mx_records lookup c).2.mx_records = some recs) ∧
    (c.validate lookup).2.mx_records =
      (EmailChecker.check_valid_mx_records lookup
        c.check_nothing.2.check_valid_email_string.2).2.mx_records := by
  refine ⟨rfl, rfl, ?_, ?_, ?_, ?_, ?_⟩
  · rw [check_valid_email_string_snd]
  · intro h
    unfold EmailChecker.check_valid_mx_records
    rcases h with h | h <;> rw [h] <;> simp
  · intro d e hd hl
    unfold EmailChecker.check_valid_mx_records
    rw [hd]
    by_cases hde : d = ""
    · simp [hde]
    · simp [hde, hl]
  · intro d recs hd hne hl
    unfold EmailChecker.check_valid_mx_records
    rw [hd]
    simp only [if_neg hne, hl]
    split <;> rfl
  · rw [validate_snd_mx_records]
    rfl

/-- C7 (witness): at the concrete subject `"a@b"` with a lookup returning one
record, construction gives `mx_records = none` and the MX check stores the
record list. -/
theorem c7_mx_records_only_mx_check_witness :
    (EmailChecker.init "a@b" false).mx_records = none ∧
    (EmailChecker.check_valid_mx_records (fun _ => .ok [(1, "m")])
      (EmailChecker.init "a@b" false)).2.mx_records = some [(1, "m")] :=
  ⟨(c7_mx_records_only_mx_check "a@b" false (fun _ => .ok [(1, "m")])
      (EmailChecker.init "a@b" false)).1,
   (c7_mx_records_only_mx_check "a@b" false (fun _ => .ok [(1, "m")])
      (EmailChecker.init "a@b" false)).2.2.2.2.2.1 "b" [(1, "m")]
     (by decide) (by decide) rfl⟩

/-- C9: with a non-empty domain, `didyoumean` recombines the local part with
the dot-joined image of the domain labels under `correct`, returning `None`
exactly when the recombination equals the original email; with an absent or
empty domain it returns `None`. -/
theorem c9_didyoumean_spec (correct : String → String) (c : EmailChecker) :
    (∀ d, c.domain = some d → d ≠ "" →
      c.didyoumean correct =
        (if c.username ++ "@" ++
              String.intercalate "." (((pySplit '.' d.data).map String.mk).map correct) =
            c.email
         then none
         else some (c.username ++ "@" ++
            String.intercalate "." (((pySplit '.' d.data).map String.mk).map correct)))) ∧
    (c.domain = none ∨ c.domain = some "" → c.didyoumean correct = none) := by
  constructor
  · intro d hd hne
    unfold EmailChecker.didyoumean
    rw [hd]
    simp [hne]
  · intro h
    unfold EmailChecker.didyoumean
    rcases h with h | h <;> rw [h] <;> simp

/-- C9 (witness): for `"bob@gnail.com"` and the collaborator mapping
`"gnail"` to `"gmail"` (identity elsewhere), the suggestion is
`"bob@gmail.com"`. -/
theorem c9_didyoumean_spec_witness :
    (EmailChecker.init "bob@gnail.com" false).didyoumean
        (fun s => if s = "gnail" then "gmail" else s) = some "bob@gmail.com" := by
  have h := (c9_didyoumean_spec (fun s => if s = "gnail" then "gmail" else s)
      (EmailChecker.init "bob@gnail.com" false)).1 "gnail.com" (by decide) (by decide)
  rw [h]
  decide

/-! ### Outcome lemmas for `mxlookup` -/

/-- A non-`NOERROR` first response fails immediately after one query. -/
lemma mxlookup_bad_first (rotate : Bool) (r1 r2 : DnsResult)
    (h1 : r1.status ≠ "NOERROR") :
    mxlookup rotate r1 r2 =
      { result := .error ⟨"DNS query status: " ++ r1.status, r1.rcode⟩,
        queries := 1 } := by
  unfold mxlookup dnslookup
  simp [h1, Except.map]

/-- No retry happens unless the first response is empty and rotation is on:
the first response's answers are sorted and returned after one query. -/
lemma mxlookup_no_retry (rotate : Bool) (r1 r2 : DnsResult)
    (h1 : r1.status = "NOERROR") (hnr : ¬(r1.answers = [] ∧ rotate = true)) :
    mxlookup rotate r1 r2 =
      { result := .ok (List.insertionSort recLE r1.answers), queries := 1 } := by
  unfold mxlookup dnslookup
  simp [h1, hnr, Except.map]

/-- An empty first success with rotation on retries exactly once; a second
success returns the second response's answers, sorted, after two queries. -/
lemma mxlookup_retry_ok (rotate : Bool) (r1 r2 : DnsResult)
    (h1 : r1.status = "NOERROR") (he : r1.answers = []) (hr : rotate = true)
    (h2 : r2.status = "NOERROR") :
    mxlookup rotate r1 r2 =
      { result := .ok (List.insertionSort recLE r2.answers), queries := 2 } := by
  unfold mxlookup dnslookup
  simp [h1, he, hr, h2, Except.map]

/-- An empty first success with rotation on retries exactly once; a
non-`NOERROR` second response fails after two queries. -/
lemma mxlookup_retry_err (rotate : Bool) (r1 r2 : DnsResult)
    (h1 : r1.status = "NOERROR") (he : r1.answers = []) (hr : rotate = true)
    (h2 : r2.status ≠ "NOERROR") :
    mxlookup rotate r1 r2 =
      { result := .error ⟨"DNS query status: " ++ r2.status, r2.rcode⟩,
        queries := 2 } := by
  unfold mxlookup dnslookup
  simp [h1, he, hr, h2, Except.map]

/-- C4: `mxlookup` fails with a `ServerError` exactly when a query it issued
reported a non-`NOERROR` status; it issues a second query exactly when the
first succeeded with zero answers and rotation is enabled (so at most two
queries ever happen); and on success the returned list is sorted ascending by
the natural `(preference, exchanger)` order and is a permutation of the
answers of the query it came from. -/
theorem c4_mxlookup_spec (rotate : Bool) (r1 r2 : DnsResult) :
    ((∃ e, (mxlookup rotate r1 r2).result = .error e) ↔
      (r1.status ≠ "NOERROR" ∨
        (r1.answers = [] ∧ rotate = true ∧ r2.status ≠ "NOERROR"))) ∧
    ((mxlookup rotate r1 r2).queries = 1 ∨ (mxlookup rotate r1 r2).queries = 2) ∧
    ((mxlookup rotate r1 r2).queries = 2 ↔
      (r1.status = "NOERROR" ∧ r1.answers = [] ∧ rotate = true)) ∧
    (∀ l, (mxlookup rotate r1 r2).result = .ok l →
      List.Sorted recLE l ∧
      l.Perm (if r1.answers = [] ∧ rotate = true then r2.answers else r1.answers)) := by
  by_cases h1 : r1.status = "NOERROR"
  · by_cases hnr : r1.answers = [] ∧ rotate = true
    · by_cases h2 : r2.status = "NOERROR"
      · rw [mxlookup_retry_ok rotate r1 r2 h1 hnr.1 hnr.2 h2]
        refine ⟨?_, Or.inr rfl, ?_, ?_⟩
        · simp [h1, h2, hnr.1, hnr.2]
        · simp [h1, hnr.1, hnr.2]
        · intro l hl
          rw [Except.ok.injEq] at hl
          subst hl
          rw [if_pos hnr]
          exact ⟨List.sorted_insertionSort recLE r2.answers,
            List.perm_insertionSort recLE r2.answers⟩
      · rw [mxlookup_retry_err rotate r1 r2 h1 hnr.1 hnr.2 h2]
        refine ⟨?_, Or.inr rfl, ?_, ?_⟩
        · simp [h1, h2, hnr.1, hnr.2]
        · simp [h1, hnr.1, hnr.2]
        · intro l hl
          exact absurd hl (by simp)
    · rw [mxlookup_no_retry rotate r1 r2 h1 hnr]
      refine ⟨?_, Or.inl rfl, ?_, ?_⟩
      · simp only [iff_def]
        constructor
        · rintro ⟨e, he⟩
          exact absurd he (by simp)
        · rintro (h | ⟨ha, hr, h2⟩)
          · exact absurd h1 h
          · exact absurd ⟨ha, hr⟩ hnr
      · constructor
        · intro h
          exact absurd h (by simp)
        · rintro ⟨_, ha, hr⟩
          exact absurd ⟨ha, hr⟩ hnr
      · intro l hl
        rw [Except.ok.injEq] at hl
        subst hl
        rw [if_neg hnr]
        exact ⟨List.sorted_insertionSort recLE r1.answers,
          List.perm_insertionSort recLE r1.answers⟩
  · rw [mxlookup_bad_first rotate r1 r2 h1]
    refine ⟨?_, Or.inl rfl, ?_, ?_⟩
    · simp [h1]
    · simp [h1]
    · intro l hl
      exact absurd hl (by simp)

/-- C4 (witness): a concrete run — first query `NOERROR` with two unsorted
answers, no rotation — returns them sorted and is a permutation of the
original answers. -/
theorem c4_mxlookup_spec_witness :
    List.Sorted recLE [(10, "a"), (20, "b")] ∧
    List.Perm [(10, "a"), (20, "b")]
      (if ([( 20, "b"), (10, "a")] : List MxRecord) = [] ∧ false = true
       then ([] : List MxRecord)
       else [(20, "b"), (10, "a")]) :=
  (c4_mxlookup_spec false ⟨"NOERROR", 0, [(20, "b"), (10, "a")]⟩
      ⟨"NOERROR", 0, []⟩).2.2.2 [(10, "a"), (20, "b")] (by rfl)

/-- Every error the syntax check emits has severity 10. -/
lemma mem_check_valid_email_string_severity (c : EmailChecker) (x : CheckError)
    (hx : x ∈ c.check_valid_email_string.1) : x.severity = 10 := by
  rw [check_valid_email_string_fst] at hx
  split at hx <;> simp_all

/-- Every error the MX check emits has severity 7. -/
lemma mem_check_valid_mx_records_severity
    (lookup : String → Except ServerError (List MxRecord)) (c : EmailChecker)
    (x : CheckError)
    (hx : x ∈ (EmailChecker.check_valid_mx_records lookup c).1) :
    x.severity = 7 := by
  rw [check_valid_mx_records_fst] at hx
  rcases hd : c.domain with _ | d <;> rw [hd] at hx <;> dsimp only at hx
  · simp_all
  · by_cases hde : d = ""
    · simp_all
    · rw [if_neg hde] at hx
      rcases hl : lookup d with e | recs <;> rw [hl] at hx <;> dsimp only at hx
      · simp_all
      · split at hx <;> simp_all

/-- C10: check discovery enumerates the `check_*` names in lexicographic
order (`dir` returns a sorted list), and consequently — the syntax check
running before the MX check, the no-op check contributing nothing, and each
mode's merge step preserving discovery order — every severity-10 syntax error
precedes every severity-7 MX error in the list `validate` returns, in both
execution modes. -/
theorem c10_syntax_precedes_mx
    (lookup : String → Except ServerError (List MxRecord)) (email : String)
    (g : Bool) :
    List.Sorted (fun a b : String => a < b) checkNames ∧
    (∀ i j ei ej,
      ((EmailChecker.init email g).validate lookup).1.get? i = some ei →
      ((EmailChecker.init email g).validate lookup).1.get? j = some ej →
      ei.severity = 10 → ej.severity = 7 → i < j) := by
  constructor
  · have hab : ("check_nothing" : String) < "check_valid_email_string" := by
      rw [String.lt_iff_toList_lt]; decide
    have hac : ("check_nothing" : String) < "check_valid_mx_records" := by
      rw [String.lt_iff_toList_lt]; decide
    have hbc : ("check_valid_email_string" : String) < "check_valid_mx_records" := by
      rw [String.lt_iff_toList_lt]; decide
    refine List.Pairwise.cons ?_ (List.Pairwise.cons ?_
      (List.Pairwise.cons ?_ List.Pairwise.nil))
    · intro b hb
      rcases List.mem_cons.mp hb with h | h
      · exact h ▸ hab
      · exact (List.mem_singleton.mp h) ▸ hac
    · intro b hb
      exact (List.mem_singleton.mp hb) ▸ hbc
    · intro b hb
      exact absurd hb (List.not_mem_nil b)
  · have hout : ((EmailChecker.init email g).validate lookup).1 =
        (EmailChecker.init email g).check_nothing.2.check_valid_email_string.1 ++
        (EmailChecker.check_valid_mx_records lookup
          (EmailChecker.init email g).check_nothing.2.check_valid_email_string.2).1 := by
      rw [validate_fst]
      show [] ++ _ = _
      unfold EmailChecker.runChecks
      simp [check_nothing_eq]
    intro i j ei ej hi hj hei hej
    rw [hout] at hi hj
    by_cases his :
        i < (EmailChecker.init email g).check_nothing.2.check_valid_email_string.1.length
    · by_cases hjs :
          j < (EmailChecker.init email g).check_nothing.2.check_valid_email_string.1.length
      · rw [List.get?_append hjs] at hj
        have h10 := mem_check_valid_email_string_severity _ ej (List.get?_mem hj)
        rw [hej] at h10
        cases h10
      · omega
    · rw [List.get?_append_right (le_of_not_lt his)] at hi
      have h7 := mem_check_valid_mx_records_severity lookup _ ei (List.get?_mem hi)
      rw [hei] at h7
      cases h7

/-- C10 (witness): for the input `"not-an-email"` in sequential mode with a
mocked erroring resolver, the severity-10 error sits at index 0 and the
severity-7 error at index 1, and the theorem places 0 before 1. -/
theorem c10_syntax_precedes_mx_witness :
    List.Sorted (fun a b : String => a < b) checkNames ∧ (0 : Nat) < 1 :=
  ⟨(c10_syntax_precedes_mx (fun _ => .error ⟨"e", 2⟩) "not-an-email" false).1,
   (c10_syntax_precedes_mx (fun _ => .error ⟨"e", 2⟩) "not-an-email" false).2
     0 1 { severity := 10, message := "Invalid email address." }
     { severity := 7, message := "No MX records found for the domain." }
     rfl rfl rfl rfl⟩

end EmailPie
